import Mathlib

/-!
Verification of the gokrazy/fbstatus repository: a shallow embedding of the
frame-buffer pixel adapters (internal/fbimage), the frame-buffer device
surface construction (internal/fb), the Linux console lease (internal/console)
and the specialized pixel-copy loops, together with theorems settling the
specification claims.

Machine integers are modelled as `Nat` with explicit `% 256` where Go's
`uint8` truncates; Go `int` values (coordinates, strides, offsets) are
modelled as `Int`. Go slices of bytes are `List Nat`; an operation that would
panic (out-of-range index) returns `none`.
-/

namespace Fbstatus

/-! ## Go `image` package geometry (image.Point, image.Rectangle) -/

/-- Go `image.Point`: a 2-D integer coordinate. -/
structure Point where
  x : Int
  y : Int
deriving DecidableEq, Repr

/-- Go `image.Rectangle`: min and max corners, half-open. -/
structure Rectangle where
  min : Point
  max : Point
deriving DecidableEq, Repr

/-- Go `image.Rect(x0, y0, x1, y1)`: builds a canonical rectangle, swapping
coordinates so that min ≤ max on each axis. -/
def mkRect (x0 y0 x1 y1 : Int) : Rectangle :=
  let p := if x0 > x1 then (x1, x0) else (x0, x1)
  let q := if y0 > y1 then (y1, y0) else (y0, y1)
  ⟨⟨p.1, q.1⟩, ⟨p.2, q.2⟩⟩

/-- Go `Point.In(r)`. -/
def ptIn (p : Point) (r : Rectangle) : Prop :=
  r.min.x ≤ p.x ∧ p.x < r.max.x ∧ r.min.y ≤ p.y ∧ p.y < r.max.y

instance (p : Point) (r : Rectangle) : Decidable (ptIn p r) := by
  unfold ptIn; infer_instance

/-- Go `Rectangle.Empty()`. -/
def rectEmpty (r : Rectangle) : Prop :=
  r.min.x ≥ r.max.x ∨ r.min.y ≥ r.max.y

instance (r : Rectangle) : Decidable (rectEmpty r) := by
  unfold rectEmpty; infer_instance

/-- Go `Rectangle.In(s)`: containment, with every empty rectangle contained
in every rectangle. -/
def rectIn (r s : Rectangle) : Prop :=
  rectEmpty r ∨
    (s.min.x ≤ r.min.x ∧ r.max.x ≤ s.max.x ∧ s.min.y ≤ r.min.y ∧ r.max.y ≤ s.max.y)

instance (r s : Rectangle) : Decidable (rectIn r s) := by
  unfold rectIn; infer_instance

/-- Go `Rectangle.Dx()`. -/
def dx (r : Rectangle) : Int := r.max.x - r.min.x

/-- Go `Rectangle.Dy()`. -/
def dy (r : Rectangle) : Int := r.max.y - r.min.y

/-! ## Byte arithmetic (Go `uint8` semantics on `Nat`) -/

/-- Go `uint8` left shift: shifts then truncates to one byte. -/
def shl8 (a n : Nat) : Nat := (a <<< n) % 256

/-- A byte read from a buffer. Every use below sits under the bounds check
that models the Go slice-index panic, so the default is never reached. -/
def byteAt (l : List Nat) (n : Nat) : Nat := l.getD n 0

/-! ## Go `color.NRGBA` and `color.RGBA` quadruples -/

/-- Go `color.NRGBA`: non-alpha-premultiplied 8-bit color. -/
structure NRGBA where
  r : Nat
  g : Nat
  b : Nat
  a : Nat
deriving DecidableEq, Repr

/-- Go `color.RGBA`: alpha-premultiplied 8-bit color. -/
structure RGBA where
  r : Nat
  g : Nat
  b : Nat
  a : Nat
deriving DecidableEq, Repr

/-! ## internal/fbimage: BGR565 (packed 16-bit) adapter -/

/-- The `fbimage.BGR565` image: byte buffer, owning rectangle, stride. -/
structure BGR565 where
  Pix : List Nat
  Rect : Rectangle
  Stride : Int
deriving DecidableEq, Repr

/-- Go `BGR565.PixOffset(x, y)`. -/
def BGR565.PixOffset (i : BGR565) (x y : Int) : Int :=
  (y - i.Rect.min.y) * i.Stride + (x - i.Rect.min.x) * 2

/-- Go `BGR565.At(x, y)`: out-of-rectangle points yield the zero NRGBA color;
in-rectangle points read two bytes at the pixel offset (`none` models the
panic on an out-of-range slice index). -/
def BGR565.At (i : BGR565) (x y : Int) : Option NRGBA :=
  if ¬ ptIn ⟨x, y⟩ i.Rect then some ⟨0, 0, 0, 0⟩
  else
    if 0 ≤ i.PixOffset x y ∧ (i.PixOffset x y).toNat + 1 < i.Pix.length then
      some ⟨shl8 (byteAt i.Pix ((i.PixOffset x y).toNat + 1) >>> 3) 3,
        shl8 (byteAt i.Pix ((i.PixOffset x y).toNat + 1)) 5 |||
          shl8 (byteAt i.Pix (i.PixOffset x y).toNat >>> 5) 2,
        shl8 (byteAt i.Pix (i.PixOffset x y).toNat) 3, 255⟩
    else none

/-- Go `BGR565.SetNRGBA(x, y, c)`: out-of-rectangle points leave the buffer
unchanged; in-rectangle points write the two packed bytes (`none` models the
panic on an out-of-range slice index). Returns the updated byte buffer. -/
def BGR565.SetNRGBA (i : BGR565) (x y : Int) (c : NRGBA) : Option (List Nat) :=
  if ¬ ptIn ⟨x, y⟩ i.Rect then some i.Pix
  else
    if 0 ≤ i.PixOffset x y ∧ (i.PixOffset x y).toNat + 1 < i.Pix.length then
      some (((i.Pix.set (i.PixOffset x y).toNat
        ((c.b >>> 3) ||| shl8 (c.g >>> 2) 5)).set
        ((i.PixOffset x y).toNat + 1) ((c.g >>> 5) ||| shl8 (c.r >>> 3) 3)))
    else none

/-! ## internal/fbimage: BGRA (32-bit) adapter -/

/-- The `fbimage.BGRA` image: byte buffer, owning rectangle, stride. -/
structure BGRA where
  Pix : List Nat
  Rect : Rectangle
  Stride : Int
deriving DecidableEq, Repr

/-- Go `BGRA.PixOffset(x, y)`. -/
def BGRA.PixOffset (i : BGRA) (x y : Int) : Int :=
  (y - i.Rect.min.y) * i.Stride + (x - i.Rect.min.x) * 4

/-- Go `BGRA.At(x, y)`: out-of-rectangle points yield the zero RGBA color;
in-rectangle points read four bytes at the pixel offset in B, G, R, A order
(`none` models the panic on an out-of-range slice index). -/
def BGRA.At (i : BGRA) (x y : Int) : Option RGBA :=
  if ¬ ptIn ⟨x, y⟩ i.Rect then some ⟨0, 0, 0, 0⟩
  else
    if 0 ≤ i.PixOffset x y ∧ (i.PixOffset x y).toNat + 3 < i.Pix.length then
      some ⟨byteAt i.Pix ((i.PixOffset x y).toNat + 2),
        byteAt i.Pix ((i.PixOffset x y).toNat + 1),
        byteAt i.Pix (i.PixOffset x y).toNat,
        byteAt i.Pix ((i.PixOffset x y).toNat + 3)⟩
    else none

/-- Go `BGRA.SetRGBA(x, y, c)`: out-of-rectangle points leave the buffer
unchanged; in-rectangle points write the four bytes B, G, R, A (`none` models
the panic on an out-of-range slice index). Returns the updated byte buffer. -/
def BGRA.SetRGBA (i : BGRA) (x y : Int) (c : RGBA) : Option (List Nat) :=
  if ¬ ptIn ⟨x, y⟩ i.Rect then some i.Pix
  else
    if 0 ≤ i.PixOffset x y ∧ (i.PixOffset x y).toNat + 3 < i.Pix.length then
      some (((((i.Pix.set (i.PixOffset x y).toNat c.b).set
        ((i.PixOffset x y).toNat + 1) c.g).set
        ((i.PixOffset x y).toNat + 2) c.r).set
        ((i.PixOffset x y).toNat + 3) c.a))
    else none

/-! ## internal/fb: frame-buffer device and surface construction -/

/-- Go `image.Gray16` as configured by `Device.Image` (buffer, rect, stride). -/
structure Gray16 where
  Pix : List Nat
  Rect : Rectangle
  Stride : Int
deriving DecidableEq, Repr

/-- The variable screen information (`fb.VarScreeninfo`) fields that
`Device.Image` reads; all are `uint32` in the kernel ABI. -/
structure VarScreeninfo where
  xres : Nat
  yres : Nat
  xres_virtual : Nat
  yres_virtual : Nat
  xoffset : Nat
  yoffset : Nat
  bits_per_pixel : Nat
  grayscale : Nat
deriving DecidableEq, Repr

/-- The `fb.Device` state that `Image` and `Close` read: the mapped buffer
and the fixed screen information's scanline length (`finfo.Line_length`). -/
structure Device where
  mmap : List Nat
  line_length : Nat
deriving DecidableEq, Repr

/-- The `draw.Image` implementations `Device.Image` can return. -/
inductive FBSurface where
  | bgra (i : BGRA)
  | gray16 (i : Gray16)
  | bgr565 (i : BGR565)
deriving DecidableEq, Repr

/-- The rectangle of a returned surface. -/
def FBSurface.rect : FBSurface → Rectangle
  | .bgra i => i.Rect
  | .gray16 i => i.Rect
  | .bgr565 i => i.Rect

/-- The stride of a returned surface. -/
def FBSurface.stride : FBSurface → Int
  | .bgra i => i.Stride
  | .gray16 i => i.Stride
  | .bgr565 i => i.Stride

/-- The byte buffer of a returned surface. -/
def FBSurface.pix : FBSurface → List Nat
  | .bgra i => i.Pix
  | .gray16 i => i.Pix
  | .bgr565 i => i.Pix

/-- Go `Device.Image()` after the `VarScreeninfo` ioctl succeeded with
`vinfo`: validates geometry and dispatches on bits-per-pixel and the
grayscale flag, exactly as fb.go lines 83–135. -/
def Device.Image (d : Device) (vinfo : VarScreeninfo) : Except String FBSurface :=
  if vinfo.bits_per_pixel = 32 then
    if dx (mkRect 0 0 (vinfo.xres_virtual : Int) (vinfo.yres_virtual : Int)) *
        dy (mkRect 0 0 (vinfo.xres_virtual : Int) (vinfo.yres_virtual : Int)) * 4 ≠
        (d.mmap.length : Int) then
      .error "virtual resolution doesn't match framebuffer size"
    else
      if ¬ rectIn (mkRect (vinfo.xoffset : Int) (vinfo.yoffset : Int)
          (vinfo.xres : Int) (vinfo.yres : Int))
          (mkRect 0 0 (vinfo.xres_virtual : Int) (vinfo.yres_virtual : Int)) then
        .error "visual resolution not contained in virtual resolution"
      else
        .ok (.bgra ⟨d.mmap, mkRect (vinfo.xoffset : Int) (vinfo.yoffset : Int)
          (vinfo.xres : Int) (vinfo.yres : Int), (d.line_length : Int)⟩)
  else if vinfo.bits_per_pixel = 16 then
    if dx (mkRect 0 0 (vinfo.xres_virtual : Int) (vinfo.yres_virtual : Int)) *
        dy (mkRect 0 0 (vinfo.xres_virtual : Int) (vinfo.yres_virtual : Int)) * 2 ≠
        (d.mmap.length : Int) then
      .error "virtual resolution doesn't match framebuffer size"
    else
      if ¬ rectIn (mkRect (vinfo.xoffset : Int) (vinfo.yoffset : Int)
          (vinfo.xres : Int) (vinfo.yres : Int))
          (mkRect 0 0 (vinfo.xres_virtual : Int) (vinfo.yres_virtual : Int)) then
        .error "visual resolution not contained in virtual resolution"
      else if vinfo.grayscale = 1 then
        .ok (.gray16 ⟨d.mmap, mkRect (vinfo.xoffset : Int) (vinfo.yoffset : Int)
          (vinfo.xres : Int) (vinfo.yres : Int), (d.line_length : Int)⟩)
      else
        .ok (.bgr565 ⟨d.mmap, mkRect (vinfo.xoffset : Int) (vinfo.yoffset : Int)
          (vinfo.xres : Int) (vinfo.yres : Int), (d.line_length : Int)⟩)
  else
    .error (toString vinfo.bits_per_pixel ++ " bits per pixel unsupported")

/-! ## internal/fb: Device.Close -/

/-- The two system calls `Device.Close` issues, in order. -/
inductive CloseCall where
  | munmap
  | closeFd
deriving DecidableEq, Repr

/-- Go `Device.Close()`, parameterized by the outcome of the two system
calls (`none` = success, `some e` = the error): records `e1 := Munmap(...)`,
then runs `Close`, returning the close error when present and `e1`
otherwise. The first component is the sequence of calls issued. -/
def Device.Close (munmapErr closeErr : Option String) :
    List CloseCall × Option String :=
  let e1 := munmapErr
  let trace := [CloseCall.munmap]
  let trace := trace ++ [CloseCall.closeFd]
  match closeErr with
  | some e2 => (trace, some e2)
  | none => (trace, e1)

/-! ## internal/console: Handle.Cleanup

The cleanup sequence is a chain of fallible system interactions. The model is
parameterized by the outcome of each underlying call (`none` = success,
`some e` = failure text), and returns the list of steps the code actually
attempted together with the returned error, following console.go
lines 197–223 (with `unhandleSwitches`, lines 94–109, and
`disallocateConsole`, lines 35–45, inlined at their own granularity). -/

/-- The cleanup steps named by the specification, in program order. -/
inductive CleanupStep where
  | kdSetModeText
  | unhandleSwitches
  | vtActivatePrev
  | vtWaitActivePrev
  | closeFile
  | closeRedrawChan
  | disallocate
deriving DecidableEq, Repr

/-- All seven cleanup steps in the order `Handle.Cleanup` performs them. -/
def allCleanupSteps : List CleanupStep :=
  [.kdSetModeText, .unhandleSwitches, .vtActivatePrev, .vtWaitActivePrev,
   .closeFile, .closeRedrawChan, .disallocate]

/-- Outcomes of every underlying call `Handle.Cleanup` can make. -/
structure CleanupOutcomes where
  kdSetModeErr : Option String
  unhandleGetModeErr : Option String
  unhandleSetModeErr : Option String
  vtActivateErr : Option String
  vtWaitActiveErr : Option String
  fileCloseErr : Option String
  disallocOpenErr : Option String
  disallocIoctlErr : Option String
  disallocCloseErr : Option String
deriving DecidableEq, Repr

/-- Go `unhandleSwitches(fd)`: VT_GETMODE, then VT_SETMODE, each returning
its wrapped error immediately on failure. -/
def unhandleSwitchesRun (o : CleanupOutcomes) : Option String :=
  match o.unhandleGetModeErr with
  | some e => some ("VT_GETMODE: " ++ e)
  | none =>
    match o.unhandleSetModeErr with
    | some e => some ("VT_SETMODE: " ++ e)
    | none => none

/-- Go `disallocateConsole(num)`: open /dev/tty0, VT_DISALLOCATE, close;
each failure returns immediately (the open error unwrapped, the ioctl error
wrapped, the close error unwrapped). -/
def disallocateConsoleRun (o : CleanupOutcomes) (num : Int) : Option String :=
  match o.disallocOpenErr with
  | some e => some e
  | none =>
    match o.disallocIoctlErr with
    | some e => some ("VT_DISALLOCATE(" ++ toString num ++ "): " ++ e)
    | none => o.disallocCloseErr

/-- Go `Handle.Cleanup()`: KDSETMODE(KD_TEXT), `unhandleSwitches`,
VT_ACTIVATE(prevVT), VT_WAITACTIVE(prevVT), `f.Close()`, `close(h.redraw)`,
`disallocateConsole(h.vt)` — each fallible step returns its error
immediately, without attempting the following steps. Returns the steps
attempted and the result. -/
def Handle.Cleanup (o : CleanupOutcomes) (vt : Int) :
    List CleanupStep × Option String :=
  match o.kdSetModeErr with
  | some e => ([.kdSetModeText], some ("KDSETMODE: " ++ e))
  | none =>
    match unhandleSwitchesRun o with
    | some e => ([.kdSetModeText, .unhandleSwitches], some e)
    | none =>
      match o.vtActivateErr with
      | some e => ([.kdSetModeText, .unhandleSwitches, .vtActivatePrev],
          some ("VT_ACTIVATE: " ++ e))
      | none =>
        match o.vtWaitActiveErr with
        | some e => ([.kdSetModeText, .unhandleSwitches, .vtActivatePrev,
            .vtWaitActivePrev], some ("VT_WAITACTIVE: " ++ e))
        | none =>
          match o.fileCloseErr with
          | some e => ([.kdSetModeText, .unhandleSwitches, .vtActivatePrev,
              .vtWaitActivePrev, .closeFile], some e)
          | none =>
            (allCleanupSteps, disallocateConsoleRun o vt)

/-- The error each of the seven steps would contribute, in order, wrapped as
the code wraps it (the channel close cannot fail). -/
def cleanupStepErrors (o : CleanupOutcomes) (vt : Int) : List (Option String) :=
  [o.kdSetModeErr.map (fun e => "KDSETMODE: " ++ e),
   unhandleSwitchesRun o,
   o.vtActivateErr.map (fun e => "VT_ACTIVATE: " ++ e),
   o.vtWaitActiveErr.map (fun e => "VT_WAITACTIVE: " ++ e),
   o.fileCloseErr,
   none,
   disallocateConsoleRun o vt]

/-- The first failure in a list of per-step outcomes. -/
def firstFailure (l : List (Option String)) : Option String :=
  l.findSome? id

/-- The steps a stop-at-first-failure sequence attempts: every step whose
predecessors all succeeded, including the first failing one. -/
def stepsUpToFirstFailure : List (Option String) → List CleanupStep → List CleanupStep
  | _, [] => []
  | [], _ => []
  | none :: es, s :: rest => s :: stepsUpToFirstFailure es rest
  | some _ :: _, s :: _ => [s]

/-! ## internal/console: visibility flag and redraw channel -/

/-- The `console.Handle` state the switch handlers touch: the visibility
flag, the occupancy of the single-slot `redraw` channel (`make(chan
struct, 1)`), and the recorded previous terminal. -/
structure HandleState where
  visible : Bool
  redrawPending : Nat
  prevVT : Int
deriving DecidableEq, Repr

/-- A non-blocking send on a channel of capacity 1 (`select` with a
`default` branch): the value is dropped when the slot is full. -/
def trySendRedraw (pending : Nat) : Nat :=
  if pending < 1 then pending + 1 else pending

/-- The SIGUSR2 (acquire) handler body from `handleSwitches`: sets the
visibility flag to true and posts a redraw notification without blocking. -/
def acquireHandler (s : HandleState) : HandleState :=
  { s with visible := true, redrawPending := trySendRedraw s.redrawPending }

/-- The SIGUSR1 (release) handler body from `handleSwitches`: clears the
visibility flag. -/
def releaseHandler (s : HandleState) : HandleState :=
  { s with visible := false }

/-! ## fbstatus.go: specialized pixel-copy loops -/

/-- Go `image.RGBA`: the source drawing buffer of the copy loops. -/
structure RGBAImage where
  Pix : List Nat
  Rect : Rectangle
  Stride : Int
deriving DecidableEq, Repr

/-- The per-pixel conversion in the body of `copyRGBAtoBGR565`: turns the
four premultiplied source bytes `(s0, s1, s2, s3)` (R, G, B, A) into a
`color.NRGBA`. Alpha `0xff` and `0` take fast branches; otherwise each
channel is widened to 16 bits, scaled by `0xffff / a` in `uint32`
arithmetic, and truncated back to a byte. -/
def premulToNRGBA (s0 s1 s2 s3 : Nat) : NRGBA :=
  if s3 = 255 then ⟨s0, s1, s2, 255⟩
  else if s3 = 0 then ⟨0, 0, 0, 0⟩
  else
    let r := s0 ||| (s0 <<< 8)
    let g := s1 ||| (s1 <<< 8)
    let b := s2 ||| (s2 <<< 8)
    let a := s3 ||| (s3 <<< 8)
    let r := r * 65535 / a
    let g := g * 65535 / a
    let b := b * 65535 / a
    ⟨(r >>> 8) % 256, (g >>> 8) % 256, (b >>> 8) % 256, (a >>> 8) % 256⟩

/-- The loop of Go `copyRGBAtoBGRA(dst, src)` over the raw byte buffers:
for `i = 0, 4, 8, …` while `i < src.length`, write
`dst[i..i+3] := (src[i+2], src[i+1], src[i], src[i+3])`; `none` models the
panic when a four-byte block does not fit in either buffer. -/
def copyBGRALoop (dst src : List Nat) (i : Nat) : Option (List Nat) :=
  if h : i < src.length then
    if i + 3 < src.length ∧ i + 3 < dst.length then
      let s0 := byteAt src i
      let s1 := byteAt src (i + 1)
      let s2 := byteAt src (i + 2)
      let s3 := byteAt src (i + 3)
      copyBGRALoop
        ((((dst.set i s2).set (i + 1) s1).set (i + 2) s0).set (i + 3) s3)
        src (i + 4)
    else none
  else some dst
termination_by src.length - i

/-- Go `copyRGBAtoBGRA(dst, src)`: iterates over `src.Pix` in four-byte
blocks, writing swapped blocks into `dst.Pix` at the same linear indices;
the destination's `Rect` and `Stride` are never consulted. -/
def copyRGBAtoBGRA (dst : BGRA) (src : RGBAImage) : Option BGRA :=
  (copyBGRALoop dst.Pix src.Pix 0).map (fun p => { dst with Pix := p })

/-! ## Auxiliary predicates and the specification-side dispatch table -/

/-- Success of a surface construction. -/
def imageOk (e : Except String FBSurface) : Prop := ∃ s, e = Except.ok s

/-- Dispatch table stated by the specification (for comparison with
`Device.Image`): bits-per-pixel 32 yields the 32-bit BGRA adapter, 16 with
the grayscale flag set yields the grayscale adapter, 16 with it unset yields
the packed BGR565 adapter, and any other depth fails with an
unsupported-format error naming the bit depth. -/
def imageDispatchSpec (d : Device) (vinfo : VarScreeninfo) : Except String FBSurface :=
  let visual := mkRect (vinfo.xoffset : Int) (vinfo.yoffset : Int)
    (vinfo.xres : Int) (vinfo.yres : Int)
  if vinfo.bits_per_pixel = 32 then
    .ok (.bgra ⟨d.mmap, visual, (d.line_length : Int)⟩)
  else if vinfo.bits_per_pixel = 16 then
    if vinfo.grayscale = 1 then
      .ok (.gray16 ⟨d.mmap, visual, (d.line_length : Int)⟩)
    else
      .ok (.bgr565 ⟨d.mmap, visual, (d.line_length : Int)⟩)
  else
    .error (toString vinfo.bits_per_pixel ++ " bits per pixel unsupported")

/-! ## Helper lemmas about byte buffers -/

theorem byteAt_set_self : ∀ (l : List Nat) (n a : Nat), n < l.length →
    byteAt (l.set n a) n = a
  | _ :: _, 0, _, _ => rfl
  | _ :: xs, n + 1, a, h => byteAt_set_self xs n a (by simpa using h)

theorem byteAt_set_other : ∀ (l : List Nat) (n m a : Nat), n ≠ m →
    byteAt (l.set n a) m = byteAt l m
  | [], _, _, _, _ => rfl
  | _ :: _, 0, 0, _, h => absurd rfl h
  | _ :: _, 0, _ + 1, _, _ => rfl
  | _ :: _, _ + 1, 0, _, _ => rfl
  | _ :: xs, n + 1, m + 1, a, h =>
    byteAt_set_other xs n m a (fun e => h (by rw [e]))

/-! ## Claim C2: Device.Close error priority -/

/-- C2, counterexample: when both the unmap and the descriptor close fail,
`Device.Close` returns only the close error, and the result is identical to
the one produced when the unmap succeeds — the unmap error is not observable
to the caller in any form. -/
theorem DeviceClose_unmap_error_lost :
    (Device.Close (some "munmap: EINVAL") (some "close: EBADF")).2 =
      some "close: EBADF" ∧
    (Device.Close (some "munmap: EINVAL") (some "close: EBADF")).2 =
      (Device.Close none (some "close: EBADF")).2 :=
  ⟨rfl, rfl⟩

/-- C2 (amended): `Device.Close` releases the mapping and then closes the
descriptor; when the descriptor close fails its error is returned and the
unmap error is discarded (it is not observable to the caller); when the
descriptor close succeeds the unmap outcome is returned. -/
theorem DeviceClose_priority (e1 : Option String) (e2 : String) :
    (Device.Close e1 (some e2)).1 = [CloseCall.munmap, CloseCall.closeFd] ∧
    (Device.Close e1 none).1 = [CloseCall.munmap, CloseCall.closeFd] ∧
    (Device.Close e1 (some e2)).2 = some e2 ∧
    (Device.Close e1 none).2 = e1 :=
  ⟨rfl, rfl, rfl, rfl⟩

/-! ## Claim C9: acquire handler coalesces redraw notifications -/

/-- C9: the acquire (SIGUSR2) handler sets the visibility flag to true and
posts a redraw notification into the single-slot channel without blocking;
running it twice before the render loop consumes anything leaves exactly one
notification pending — the second post is dropped. -/
theorem acquireHandler_coalesce (s : HandleState) (h : s.redrawPending = 0) :
    (acquireHandler s).visible = true ∧
    (acquireHandler s).redrawPending = 1 ∧
    (acquireHandler (acquireHandler s)).visible = true ∧
    (acquireHandler (acquireHandler s)).redrawPending = 1 := by
  simp [acquireHandler, trySendRedraw, h]

/-- C9, witness: the coalescing theorem applied to the freshly leased handle
state (not visible yet, empty redraw slot, previous terminal 1). -/
theorem acquireHandler_coalesce_witness :
    (⟨false, 0, 1⟩ : HandleState).redrawPending = 0 ∧
    ((acquireHandler ⟨false, 0, 1⟩).visible = true ∧
     (acquireHandler ⟨false, 0, 1⟩).redrawPending = 1 ∧
     (acquireHandler (acquireHandler ⟨false, 0, 1⟩)).visible = true ∧
     (acquireHandler (acquireHandler ⟨false, 0, 1⟩)).redrawPending = 1) :=
  ⟨rfl, acquireHandler_coalesce ⟨false, 0, 1⟩ rfl⟩

/-! ## Claim C8: alpha un-premultiplication in copyRGBAtoBGR565 -/

/-- C8: the per-pixel conversion of the fast 16-bit copy path turns the
premultiplied source bytes r = g = b = 64, alpha = 128 into channel value
127 — within one unit of the exact un-premultiplied value 128 — and keeps
alpha 128; fully opaque (alpha = 255) and fully transparent (alpha = 0)
source pixels take the fast branches unchanged. -/
theorem premulToNRGBA_spec :
    (premulToNRGBA 64 64 64 128 = ⟨127, 127, 127, 128⟩ ∧
     128 - (premulToNRGBA 64 64 64 128).r ≤ 1 ∧
     128 - (premulToNRGBA 64 64 64 128).g ≤ 1 ∧
     128 - (premulToNRGBA 64 64 64 128).b ≤ 1) ∧
    (∀ s0 s1 s2 : Nat, premulToNRGBA s0 s1 s2 255 = ⟨s0, s1, s2, 255⟩) ∧
    (∀ s0 s1 s2 : Nat, premulToNRGBA s0 s1 s2 0 = ⟨0, 0, 0, 0⟩) :=
  ⟨by decide, fun _ _ _ => rfl, fun _ _ _ => rfl⟩

/-! ## Claim C1: Handle.Cleanup stops at the first failure -/

/-- C1, counterexample: when the very first step (restoring text mode)
fails, `Handle.Cleanup` returns that failure immediately: the only attempted
step is the text-mode restore, and in particular the previous terminal is
never activated — subsequent cleanup steps are not attempted. -/
theorem Cleanup_stops_at_first_failure :
    Handle.Cleanup ⟨some "EIO", none, none, none, none, none, none, none, none⟩ 5 =
      ([CleanupStep.kdSetModeText], some "KDSETMODE: EIO") ∧
    CleanupStep.vtActivatePrev ∉
      (Handle.Cleanup ⟨some "EIO", none, none, none, none, none, none, none, none⟩ 5).1 := by
  exact ⟨rfl, by decide⟩

/-- C1 (amended): `Handle.Cleanup` attempts its steps in order and stops at
the first failing step, returning that first failure; steps after the first
failure are not attempted, and only when every step succeeds are all seven
steps attempted. -/
theorem Cleanup_first_failure (o : CleanupOutcomes) (vt : Int) :
    Handle.Cleanup o vt =
      (stepsUpToFirstFailure (cleanupStepErrors o vt) allCleanupSteps,
       firstFailure (cleanupStepErrors o vt)) := by
  rcases o with ⟨k, ug, us, va, vw, fc, d1, d2, d3⟩
  cases k <;> cases ug <;> cases us <;> cases va <;> cases vw <;> cases fc <;>
    cases d1 <;> cases d2 <;> cases d3 <;>
    simp [Handle.Cleanup, unhandleSwitchesRun, cleanupStepErrors, firstFailure,
      stepsUpToFirstFailure, allCleanupSteps, disallocateConsoleRun,
      List.findSome?]

/-! ## Claims C3, C4, C5: Device.Image geometry and dispatch -/

theorem mkRect_virtual_dims (a b : Nat) :
    dx (mkRect 0 0 (a : Int) (b : Int)) = a ∧
    dy (mkRect 0 0 (a : Int) (b : Int)) = b := by
  have ha : ¬((0 : Int) > (a : Int)) := by omega
  have hb : ¬((0 : Int) > (b : Int)) := by omega
  simp [mkRect, dx, dy, ha, hb]

theorem virtual_size_check4 (a b len : Nat) :
    (dx (mkRect 0 0 (a : Int) (b : Int)) * dy (mkRect 0 0 (a : Int) (b : Int)) *
        4 = (len : Int)) ↔ a * b * 4 = len := by
  rw [(mkRect_virtual_dims a b).1, (mkRect_virtual_dims a b).2]
  constructor
  · intro h; exact_mod_cast h
  · intro h; exact_mod_cast h

theorem virtual_size_check2 (a b len : Nat) :
    (dx (mkRect 0 0 (a : Int) (b : Int)) * dy (mkRect 0 0 (a : Int) (b : Int)) *
        2 = (len : Int)) ↔ a * b * 2 = len := by
  rw [(mkRect_virtual_dims a b).1, (mkRect_virtual_dims a b).2]
  constructor
  · intro h; exact_mod_cast h
  · intro h; exact_mod_cast h

/-- C3, counterexample: a successful 32-bit surface construction with pixel
offset 1 and visible horizontal resolution 4 yields a visible rectangle of
width 3, not 4 — the queried resolution is used as the max corner, not as
the width. -/
theorem Image_visible_width_not_xres :
    Device.Image ⟨List.replicate 32 0, 16⟩ ⟨4, 2, 4, 2, 1, 0, 32, 0⟩ =
      Except.ok (.bgra ⟨List.replicate 32 0, mkRect 1 0 4 2, 16⟩) ∧
    dx (mkRect 1 0 4 2) ≠ (4 : Int) := by
  exact ⟨by rfl, by decide⟩

/-- C3 (amended): every surface returned by `Device.Image` uses the fixed
screen information's scanline length as its stride, borrows the mapped
buffer, and has the visible rectangle whose min corner is the queried pixel
offsets and whose max corner is the queried visible resolution (so its width
is the visible horizontal resolution minus the horizontal offset, and its
height the visible vertical resolution minus the vertical offset). -/
theorem Image_stride_and_rect (d : Device) (v : VarScreeninfo) (s : FBSurface)
    (h : d.Image v = Except.ok s) :
    s.stride = (d.line_length : Int) ∧
    s.rect = mkRect (v.xoffset : Int) (v.yoffset : Int) (v.xres : Int) (v.yres : Int) ∧
    s.pix = d.mmap := by
  unfold Device.Image at h
  by_cases h32 : v.bits_per_pixel = 32
  · rw [if_pos h32] at h
    by_cases hsz : dx (mkRect 0 0 (v.xres_virtual : Int) (v.yres_virtual : Int)) *
        dy (mkRect 0 0 (v.xres_virtual : Int) (v.yres_virtual : Int)) * 4 ≠
        (d.mmap.length : Int)
    · rw [if_pos hsz] at h; exact Except.noConfusion h
    · rw [if_neg hsz] at h
      by_cases hv : ¬ rectIn (mkRect (v.xoffset : Int) (v.yoffset : Int)
          (v.xres : Int) (v.yres : Int))
          (mkRect 0 0 (v.xres_virtual : Int) (v.yres_virtual : Int))
      · rw [if_pos hv] at h; exact Except.noConfusion h
      · rw [if_neg hv] at h
        cases h
        exact ⟨rfl, rfl, rfl⟩
  · rw [if_neg h32] at h
    by_cases h16 : v.bits_per_pixel = 16
    · rw [if_pos h16] at h
      by_cases hsz : dx (mkRect 0 0 (v.xres_virtual : Int) (v.yres_virtual : Int)) *
          dy (mkRect 0 0 (v.xres_virtual : Int) (v.yres_virtual : Int)) * 2 ≠
          (d.mmap.length : Int)
      · rw [if_pos hsz] at h; exact Except.noConfusion h
      · rw [if_neg hsz] at h
        by_cases hv : ¬ rectIn (mkRect (v.xoffset : Int) (v.yoffset : Int)
            (v.xres : Int) (v.yres : Int))
            (mkRect 0 0 (v.xres_virtual : Int) (v.yres_virtual : Int))
        · rw [if_pos hv] at h; exact Except.noConfusion h
        · rw [if_neg hv] at h
          by_cases hgs : v.grayscale = 1
          · rw [if_pos hgs] at h; cases h; exact ⟨rfl, rfl, rfl⟩
          · rw [if_neg hgs] at h; cases h; exact ⟨rfl, rfl, rfl⟩
    · rw [if_neg h16] at h; exact Except.noConfusion h

/-- C3, witness: the amended theorem applied to a 4×2 32-bpp device with a
32-byte buffer and zero offsets. -/
theorem Image_stride_and_rect_witness :
    Device.Image ⟨List.replicate 32 0, 16⟩ ⟨4, 2, 4, 2, 0, 0, 32, 0⟩ =
      Except.ok (.bgra ⟨List.replicate 32 0, mkRect 0 0 4 2, 16⟩) ∧
    ((FBSurface.bgra ⟨List.replicate 32 0, mkRect 0 0 4 2, 16⟩).stride = ((16 : Nat) : Int) ∧
     (FBSurface.bgra ⟨List.replicate 32 0, mkRect 0 0 4 2, 16⟩).rect =
       mkRect ((0 : Nat) : Int) ((0 : Nat) : Int) ((4 : Nat) : Int) ((2 : Nat) : Int) ∧
     (FBSurface.bgra ⟨List.replicate 32 0, mkRect 0 0 4 2, 16⟩).pix = List.replicate 32 0) :=
  ⟨by rfl,
   Image_stride_and_rect ⟨List.replicate 32 0, 16⟩ ⟨4, 2, 4, 2, 0, 0, 32, 0⟩ _ (by rfl)⟩

/-- C4: for a queried geometry with bits-per-pixel 16 or 32, surface
construction succeeds exactly when virtual width × virtual height ×
bytes-per-pixel equals the mapped buffer length and the visible rectangle is
contained in the virtual rectangle; every failure for those depths is one of
the two geometry-mismatch errors. -/
theorem Image_geometry_validation (d : Device) (v : VarScreeninfo)
    (hbpp : v.bits_per_pixel = 32 ∨ v.bits_per_pixel = 16) :
    (imageOk (d.Image v) ↔
      (v.xres_virtual * v.yres_virtual * (v.bits_per_pixel / 8) = d.mmap.length ∧
       rectIn (mkRect (v.xoffset : Int) (v.yoffset : Int) (v.xres : Int) (v.yres : Int))
         (mkRect 0 0 (v.xres_virtual : Int) (v.yres_virtual : Int)))) ∧
    (∀ e, d.Image v = Except.error e →
      e = "virtual resolution doesn't match framebuffer size" ∨
      e = "visual resolution not contained in virtual resolution") := by
  rcases hbpp with h | h
  · unfold Device.Image
    rw [h]
    simp only [reduceIte, Nat.reduceDiv]
    by_cases hsz : dx (mkRect 0 0 (v.xres_virtual : Int) (v.yres_virtual : Int)) *
        dy (mkRect 0 0 (v.xres_virtual : Int) (v.yres_virtual : Int)) * 4 ≠
        (d.mmap.length : Int)
    · rw [if_pos hsz]
      refine ⟨⟨fun hok => ?_, fun hgood => ?_⟩, fun e he => ?_⟩
      · obtain ⟨s, hs⟩ := hok; exact Except.noConfusion hs
      · exact absurd ((virtual_size_check4 _ _ _).2 hgood.1) hsz
      · exact Or.inl (Except.error.inj he).symm
    · rw [if_neg hsz]
      by_cases hv : ¬ rectIn (mkRect (v.xoffset : Int) (v.yoffset : Int)
          (v.xres : Int) (v.yres : Int))
          (mkRect 0 0 (v.xres_virtual : Int) (v.yres_virtual : Int))
      · rw [if_pos hv]
        refine ⟨⟨fun hok => ?_, fun hgood => ?_⟩, fun e he => ?_⟩
        · obtain ⟨s, hs⟩ := hok; exact Except.noConfusion hs
        · exact absurd hgood.2 hv
        · exact Or.inr (Except.error.inj he).symm
      · rw [if_neg hv]
        refine ⟨⟨fun _ => ?_, fun _ => ⟨_, rfl⟩⟩, fun e he => Except.noConfusion he⟩
        exact ⟨(virtual_size_check4 _ _ _).1 (not_not.1 hsz), not_not.1 hv⟩
  · unfold Device.Image
    rw [h]
    rw [if_neg (by decide : ¬ (16 : Nat) = 32), if_pos (rfl : (16 : Nat) = 16)]
    simp only [Nat.reduceDiv]
    by_cases hsz : dx (mkRect 0 0 (v.xres_virtual : Int) (v.yres_virtual : Int)) *
        dy (mkRect 0 0 (v.xres_virtual : Int) (v.yres_virtual : Int)) * 2 ≠
        (d.mmap.length : Int)
    · rw [if_pos hsz]
      refine ⟨⟨fun hok => ?_, fun hgood => ?_⟩, fun e he => ?_⟩
      · obtain ⟨s, hs⟩ := hok; exact Except.noConfusion hs
      · exact absurd ((virtual_size_check2 _ _ _).2 hgood.1) hsz
      · exact Or.inl (Except.error.inj he).symm
    · rw [if_neg hsz]
      by_cases hv : ¬ rectIn (mkRect (v.xoffset : Int) (v.yoffset : Int)
          (v.xres : Int) (v.yres : Int))
          (mkRect 0 0 (v.xres_virtual : Int) (v.yres_virtual : Int))
      · rw [if_pos hv]
        refine ⟨⟨fun hok => ?_, fun hgood => ?_⟩, fun e he => ?_⟩
        · obtain ⟨s, hs⟩ := hok; exact Except.noConfusion hs
        · exact absurd hgood.2 hv
        · exact Or.inr (Except.error.inj he).symm
      · rw [if_neg hv]
        refine ⟨⟨fun _ => ?_, fun _ => ?_⟩, fun e he => ?_⟩
        · exact ⟨(virtual_size_check2 _ _ _).1 (not_not.1 hsz), not_not.1 hv⟩
        · by_cases hgs : v.grayscale = 1
          · rw [if_pos hgs]; exact ⟨_, rfl⟩
          · rw [if_neg hgs]; exact ⟨_, rfl⟩
        · by_cases hgs : v.grayscale = 1
          · rw [if_pos hgs] at he; exact Except.noConfusion he
          · rw [if_neg hgs] at he; exact Except.noConfusion he

/-- C4, witness: the validation theorem applied to a 4×2 32-bpp device with
a consistent 32-byte buffer. -/
theorem Image_geometry_validation_witness :
    ((4 : Nat) = 32 ∨ (4 : Nat) = 16 → True) ∧
    ((imageOk (Device.Image ⟨List.replicate 32 0, 16⟩ ⟨4, 2, 4, 2, 0, 0, 32, 0⟩) ↔
      (4 * 2 * (32 / 8) = (List.replicate (32 : Nat) (0 : Nat)).length ∧
       rectIn (mkRect ((0 : Nat) : Int) ((0 : Nat) : Int) ((4 : Nat) : Int) ((2 : Nat) : Int))
         (mkRect 0 0 ((4 : Nat) : Int) ((2 : Nat) : Int)))) ∧
    (∀ e, Device.Image ⟨List.replicate 32 0, 16⟩ ⟨4, 2, 4, 2, 0, 0, 32, 0⟩ = Except.error e →
      e = "virtual resolution doesn't match framebuffer size" ∨
      e = "visual resolution not contained in virtual resolution")) :=
  ⟨fun _ => trivial,
   Image_geometry_validation ⟨List.replicate 32 0, 16⟩ ⟨4, 2, 4, 2, 0, 0, 32, 0⟩
     (Or.inl rfl)⟩

/-- C5: whenever the geometry checks pass (vacuously for unsupported
depths), `Device.Image` agrees with the specification's dispatch table:
depth 32 yields the BGRA adapter, depth 16 with the grayscale flag set the
grayscale adapter, depth 16 with it unset the packed BGR565 adapter, and any
other depth the unsupported-format error naming the bit depth. -/
theorem Image_dispatch (d : Device) (v : VarScreeninfo)
    (hgeom : v.bits_per_pixel = 32 ∨ v.bits_per_pixel = 16 →
      (v.xres_virtual * v.yres_virtual * (v.bits_per_pixel / 8) = d.mmap.length ∧
       rectIn (mkRect (v.xoffset : Int) (v.yoffset : Int) (v.xres : Int) (v.yres : Int))
         (mkRect 0 0 (v.xres_virtual : Int) (v.yres_virtual : Int)))) :
    d.Image v = imageDispatchSpec d v := by
  unfold Device.Image imageDispatchSpec
  by_cases h32 : v.bits_per_pixel = 32
  · obtain ⟨hsz, hvis⟩ := hgeom (Or.inl h32)
    rw [h32] at hsz ⊢
    norm_num at hsz
    have hszInt : dx (mkRect 0 0 (v.xres_virtual : Int) (v.yres_virtual : Int)) *
        dy (mkRect 0 0 (v.xres_virtual : Int) (v.yres_virtual : Int)) * 4 =
        (d.mmap.length : Int) := (virtual_size_check4 _ _ _).2 hsz
    simp only [reduceIte]
    rw [if_neg (not_not_intro hszInt), if_neg (not_not_intro hvis)]
  · by_cases h16 : v.bits_per_pixel = 16
    · obtain ⟨hsz, hvis⟩ := hgeom (Or.inr h16)
      rw [h16] at hsz ⊢
      norm_num at hsz
      have hszInt : dx (mkRect 0 0 (v.xres_virtual : Int) (v.yres_virtual : Int)) *
          dy (mkRect 0 0 (v.xres_virtual : Int) (v.yres_virtual : Int)) * 2 =
          (d.mmap.length : Int) := (virtual_size_check2 _ _ _).2 hsz
      have hne : ¬ (16 : Nat) = 32 := by decide
      rw [if_neg hne, if_neg hne, if_pos (rfl : (16 : Nat) = 16),
        if_pos (rfl : (16 : Nat) = 16)]
      rw [if_neg (not_not_intro hszInt), if_neg (not_not_intro hvis)]
    · simp [h32, h16]

/-- C5, witness: the dispatch theorem applied to a 4×2 32-bpp device with a
consistent 32-byte buffer. -/
theorem Image_dispatch_witness :
    ((4 : Nat) * 2 * (32 / 8) = (List.replicate (32 : Nat) (0 : Nat)).length ∧
     rectIn (mkRect ((0 : Nat) : Int) ((0 : Nat) : Int) ((4 : Nat) : Int) ((2 : Nat) : Int))
       (mkRect 0 0 ((4 : Nat) : Int) ((2 : Nat) : Int))) ∧
    Device.Image ⟨List.replicate 32 0, 16⟩ ⟨4, 2, 4, 2, 0, 0, 32, 0⟩ =
      imageDispatchSpec ⟨List.replicate 32 0, 16⟩ ⟨4, 2, 4, 2, 0, 0, 32, 0⟩ :=
  ⟨by decide,
   Image_dispatch ⟨List.replicate 32 0, 16⟩ ⟨4, 2, 4, 2, 0, 0, 32, 0⟩
     (fun _ => by decide)⟩

/-! ## Claim C7: out-of-bounds get/set behavior of the adapters -/

/-- C7: for every point outside an adapter's rectangle and every
rectangle/stride combination with stride ≥ width × bytes-per-pixel, `At`
returns the zero color and `SetNRGBA`/`SetRGBA` return the buffer unchanged;
neither operation touches the buffer (the result never models a slice
panic, for any buffer whatsoever). -/
theorem At_Set_out_of_bounds :
    (∀ (pix : List Nat) (rect : Rectangle) (stride x y : Int) (c : NRGBA),
      2 * dx rect ≤ stride → ¬ ptIn ⟨x, y⟩ rect →
      BGR565.At ⟨pix, rect, stride⟩ x y = some ⟨0, 0, 0, 0⟩ ∧
      BGR565.SetNRGBA ⟨pix, rect, stride⟩ x y c = some pix) ∧
    (∀ (pix : List Nat) (rect : Rectangle) (stride x y : Int) (c : RGBA),
      4 * dx rect ≤ stride → ¬ ptIn ⟨x, y⟩ rect →
      BGRA.At ⟨pix, rect, stride⟩ x y = some ⟨0, 0, 0, 0⟩ ∧
      BGRA.SetRGBA ⟨pix, rect, stride⟩ x y c = some pix) := by
  constructor
  · intro pix rect stride x y c _ hout
    exact ⟨by simp [BGR565.At, hout], by simp [BGR565.SetNRGBA, hout]⟩
  · intro pix rect stride x y c _ hout
    exact ⟨by simp [BGRA.At, hout], by simp [BGRA.SetRGBA, hout]⟩

/-- C7, witness: the out-of-bounds theorem applied to the point (5, 0)
outside a 1×1 rectangle, for both adapters. -/
theorem At_Set_out_of_bounds_witness :
    ((2 * dx (mkRect 0 0 1 1) ≤ 2 ∧ ¬ ptIn ⟨5, 0⟩ (mkRect 0 0 1 1)) ∧
     BGR565.At ⟨[7, 7], mkRect 0 0 1 1, 2⟩ 5 0 = some ⟨0, 0, 0, 0⟩ ∧
     BGR565.SetNRGBA ⟨[7, 7], mkRect 0 0 1 1, 2⟩ 5 0 ⟨1, 2, 3, 4⟩ = some [7, 7]) ∧
    ((4 * dx (mkRect 0 0 1 1) ≤ 4 ∧ ¬ ptIn ⟨5, 0⟩ (mkRect 0 0 1 1)) ∧
     BGRA.At ⟨[7, 7, 7, 7], mkRect 0 0 1 1, 4⟩ 5 0 = some ⟨0, 0, 0, 0⟩ ∧
     BGRA.SetRGBA ⟨[7, 7, 7, 7], mkRect 0 0 1 1, 4⟩ 5 0 ⟨1, 2, 3, 4⟩ =
       some [7, 7, 7, 7]) :=
  ⟨⟨⟨by decide, by decide⟩,
    At_Set_out_of_bounds.1 [7, 7] (mkRect 0 0 1 1) 2 5 0 ⟨1, 2, 3, 4⟩
      (by decide) (by decide)⟩,
   ⟨⟨by decide, by decide⟩,
    At_Set_out_of_bounds.2 [7, 7, 7, 7] (mkRect 0 0 1 1) 4 5 0 ⟨1, 2, 3, 4⟩
      (by decide) (by decide)⟩⟩

/-! ## Claim C6: set/get round trip of the adapters -/

set_option maxHeartbeats 1000000 in
theorem bgr565_pack_unpack : ∀ rq < 32, ∀ gq < 64, ∀ bq < 32,
    (shl8 ((((4 * gq) >>> 5) ||| shl8 ((8 * rq) >>> 3) 3) >>> 3) 3 = 8 * rq ∧
     (shl8 (((4 * gq) >>> 5) ||| shl8 ((8 * rq) >>> 3) 3) 5 |||
       shl8 ((((8 * bq) >>> 3) ||| shl8 ((4 * gq) >>> 2) 5) >>> 5) 2) = 4 * gq ∧
     shl8 ((((8 * bq) >>> 3) ||| shl8 ((4 * gq) >>> 2) 5)) 3 = 8 * bq) := by
  decide

/-- C6: writing a 5/6/5-representable color (red and blue multiples of 8,
green a multiple of 4) at an in-rectangle point with `BGR565.SetNRGBA` and
reading it back with `BGR565.At` returns the same channels with alpha 255;
writing any 8-bit RGBA quadruple with `BGRA.SetRGBA` and reading it back
with `BGRA.At` returns the identical quadruple. -/
theorem set_get_roundtrip :
    (∀ (i : BGR565) (x y : Int) (c : NRGBA) (newPix : List Nat),
      c.r < 256 → 8 ∣ c.r → c.g < 256 → 4 ∣ c.g → c.b < 256 → 8 ∣ c.b →
      ptIn ⟨x, y⟩ i.Rect →
      i.SetNRGBA x y c = some newPix →
      BGR565.At ⟨newPix, i.Rect, i.Stride⟩ x y = some ⟨c.r, c.g, c.b, 255⟩) ∧
    (∀ (i : BGRA) (x y : Int) (c : RGBA) (newPix : List Nat),
      c.r < 256 → c.g < 256 → c.b < 256 → c.a < 256 →
      ptIn ⟨x, y⟩ i.Rect →
      i.SetRGBA x y c = some newPix →
      BGRA.At ⟨newPix, i.Rect, i.Stride⟩ x y = some c) := by
  constructor
  · intro i x y c newPix hr1 hr2 hg1 hg2 hb1 hb2 hpt hset
    rw [BGR565.SetNRGBA, if_neg (not_not_intro hpt)] at hset
    split at hset
    case isFalse => exact Option.noConfusion hset
    case isTrue hoff =>
      obtain ⟨hoff0, hofflen⟩ := hoff
      injection hset with hset
      rw [BGR565.At]
      have hrect : (⟨newPix, i.Rect, i.Stride⟩ : BGR565).Rect = i.Rect := rfl
      have hoffeq : BGR565.PixOffset ⟨newPix, i.Rect, i.Stride⟩ x y =
        i.PixOffset x y := rfl
      have hpixeq : (⟨newPix, i.Rect, i.Stride⟩ : BGR565).Pix = newPix := rfl
      rw [hrect, if_neg (not_not_intro hpt), hoffeq, hpixeq]
      have hlen : newPix.length = i.Pix.length := by
        rw [← hset]; simp
      rw [if_pos ⟨hoff0, by omega⟩]
      have hb1' : byteAt newPix ((i.PixOffset x y).toNat + 1) =
          (c.g >>> 5) ||| shl8 (c.r >>> 3) 3 := by
        rw [← hset]
        exact byteAt_set_self _ _ _ (by simp; omega)
      have hb0' : byteAt newPix (i.PixOffset x y).toNat =
          (c.b >>> 3) ||| shl8 (c.g >>> 2) 5 := by
        rw [← hset]
        rw [byteAt_set_other _ _ _ _ (by omega)]
        exact byteAt_set_self _ _ _ (by omega)
      rw [hb1', hb0']
      obtain ⟨e1, e2, e3⟩ := bgr565_pack_unpack (c.r / 8) (by omega)
        (c.g / 4) (by omega) (c.b / 8) (by omega)
      rw [Nat.mul_div_cancel' hr2] at e1 e2
      rw [Nat.mul_div_cancel' hg2] at e1 e2 e3
      rw [Nat.mul_div_cancel' hb2] at e2 e3
      simp only [Option.some.injEq, NRGBA.mk.injEq]
      exact ⟨e1, e2, e3, trivial⟩
  · intro i x y c newPix hr1 hg1 hb1 ha1 hpt hset
    rw [BGRA.SetRGBA, if_neg (not_not_intro hpt)] at hset
    split at hset
    case isFalse => exact Option.noConfusion hset
    case isTrue hoff =>
      obtain ⟨hoff0, hofflen⟩ := hoff
      injection hset with hset
      rw [BGRA.At]
      have hrect : (⟨newPix, i.Rect, i.Stride⟩ : BGRA).Rect = i.Rect := rfl
      have hoffeq : BGRA.PixOffset ⟨newPix, i.Rect, i.Stride⟩ x y =
        i.PixOffset x y := rfl
      have hpixeq : (⟨newPix, i.Rect, i.Stride⟩ : BGRA).Pix = newPix := rfl
      rw [hrect, if_neg (not_not_intro hpt), hoffeq, hpixeq]
      have hlen : newPix.length = i.Pix.length := by
        rw [← hset]; simp
      rw [if_pos ⟨hoff0, by omega⟩]
      have h3 : byteAt newPix ((i.PixOffset x y).toNat + 3) = c.a := by
        rw [← hset]
        exact byteAt_set_self _ _ _ (by simp; omega)
      have h2 : byteAt newPix ((i.PixOffset x y).toNat + 2) = c.r := by
        rw [← hset]
        rw [byteAt_set_other _ _ _ _ (by omega)]
        exact byteAt_set_self _ _ _ (by simp; omega)
      have h1 : byteAt newPix ((i.PixOffset x y).toNat + 1) = c.g := by
        rw [← hset]
        rw [byteAt_set_other _ _ _ _ (by omega),
          byteAt_set_other _ _ _ _ (by omega)]
        exact byteAt_set_self _ _ _ (by simp; omega)
      have h0 : byteAt newPix (i.PixOffset x y).toNat = c.b := by
        rw [← hset]
        rw [byteAt_set_other _ _ _ _ (by omega),
          byteAt_set_other _ _ _ _ (by omega),
          byteAt_set_other _ _ _ _ (by omega)]
        exact byteAt_set_self _ _ _ (by omega)
      rw [h3, h2, h1, h0]

/-- C6, witness: the round-trip theorem applied at the origin of a 1×1
surface — the packed adapter on the color (16, 8, 24, 9) and the 32-bit
adapter on the quadruple (1, 2, 3, 4). -/
theorem set_get_roundtrip_witness :
    ((16 : Nat) < 256 ∧ 8 ∣ (16 : Nat) ∧ (8 : Nat) < 256 ∧ 4 ∣ (8 : Nat) ∧
     (24 : Nat) < 256 ∧ 8 ∣ (24 : Nat) ∧ ptIn ⟨0, 0⟩ (mkRect 0 0 1 1) ∧
     BGR565.At ⟨[67, 16], mkRect 0 0 1 1, 2⟩ 0 0 = some ⟨16, 8, 24, 255⟩) ∧
    (ptIn ⟨0, 0⟩ (mkRect 0 0 1 1) ∧
     BGRA.At ⟨[3, 2, 1, 4], mkRect 0 0 1 1, 4⟩ 0 0 = some ⟨1, 2, 3, 4⟩) := by
  constructor
  · refine ⟨by decide, by decide, by decide, by decide, by decide, by decide,
      by decide, ?_⟩
    exact set_get_roundtrip.1 ⟨[0, 0], mkRect 0 0 1 1, 2⟩ 0 0 ⟨16, 8, 24, 9⟩
      [67, 16] (by decide) (by decide) (by decide) (by decide) (by decide)
      (by decide) (by decide) (by decide)
  · refine ⟨by decide, ?_⟩
    exact set_get_roundtrip.2 ⟨[0, 0, 0, 0], mkRect 0 0 1 1, 4⟩ 0 0 ⟨1, 2, 3, 4⟩
      [3, 2, 1, 4] (by decide) (by decide) (by decide) (by decide)
      (by decide) (by decide)

/-! ## Claim C10: copyRGBAtoBGRA ignores the destination geometry -/

theorem copyBGRALoop_spec (src : List Nat) (hdiv4 : 4 ∣ src.length) :
    ∀ (k : Nat) (dst : List Nat) (i : Nat),
      src.length ≤ dst.length → 4 ∣ i → i ≤ src.length → src.length - i = k →
      ∃ out, copyBGRALoop dst src i = some out ∧
        out.length = dst.length ∧
        (∀ j, j < i → byteAt out j = byteAt dst j) ∧
        (∀ j, src.length ≤ j → byteAt out j = byteAt dst j) ∧
        (∀ m, 4 ∣ m → i ≤ m → m + 3 < src.length →
          byteAt out m = byteAt src (m + 2) ∧
          byteAt out (m + 1) = byteAt src (m + 1) ∧
          byteAt out (m + 2) = byteAt src m ∧
          byteAt out (m + 3) = byteAt src (m + 3)) := by
  intro k
  induction k using Nat.strong_induction_on with
  | _ k IH =>
    intro dst i hlen hi4 hile hk
    rw [copyBGRALoop]
    by_cases hlt : i < src.length
    · have hstep : i + 4 ≤ src.length := by omega
      rw [dif_pos hlt, if_pos (⟨by omega, by omega⟩ : i + 3 < src.length ∧
        i + 3 < dst.length)]
      obtain ⟨out, hout, houtlen, hbelow, habove, hblocks⟩ :=
        IH (src.length - (i + 4)) (by omega)
          ((((dst.set i (byteAt src (i + 2))).set (i + 1) (byteAt src (i + 1))).set
            (i + 2) (byteAt src i)).set (i + 3) (byteAt src (i + 3)))
          (i + 4) (by simp; omega) (by omega) (by omega) rfl
      refine ⟨out, hout, by rw [houtlen]; simp, ?_, ?_, ?_⟩
      · intro j hji
        rw [hbelow j (by omega), byteAt_set_other _ _ _ _ (by omega),
          byteAt_set_other _ _ _ _ (by omega), byteAt_set_other _ _ _ _ (by omega),
          byteAt_set_other _ _ _ _ (by omega)]
      · intro j hj
        rw [habove j hj, byteAt_set_other _ _ _ _ (by omega),
          byteAt_set_other _ _ _ _ (by omega), byteAt_set_other _ _ _ _ (by omega),
          byteAt_set_other _ _ _ _ (by omega)]
      · intro m hm4 him hm3
        by_cases hmi : m = i
        · subst hmi
          have hmlen : m + 3 < dst.length := by omega
          refine ⟨?_, ?_, ?_, ?_⟩
          · rw [hbelow m (by omega), byteAt_set_other _ _ _ _ (by omega),
              byteAt_set_other _ _ _ _ (by omega),
              byteAt_set_other _ _ _ _ (by omega)]
            exact byteAt_set_self _ _ _ (by omega)
          · rw [hbelow (m + 1) (by omega), byteAt_set_other _ _ _ _ (by omega),
              byteAt_set_other _ _ _ _ (by omega)]
            exact byteAt_set_self _ _ _ (by simp; omega)
          · rw [hbelow (m + 2) (by omega), byteAt_set_other _ _ _ _ (by omega)]
            exact byteAt_set_self _ _ _ (by simp; omega)
          · rw [hbelow (m + 3) (by omega)]
            exact byteAt_set_self _ _ _ (by simp; omega)
        · exact hblocks m hm4 (by omega) hm3
    · rw [dif_neg hlt]
      refine ⟨dst, rfl, rfl, fun j _ => rfl, fun j _ => rfl, ?_⟩
      intro m _ him hm3
      omega

/-- C10: the fast 32-bit copy never consults the destination's rectangle,
stride or offsets: whenever the destination buffer is at least as long as
the source buffer (whose length, as an RGBA image, is a multiple of four),
the copy succeeds, preserves the destination's rectangle and stride, writes
`dst.Pix[i..i+3] := (src.Pix[i+2], src.Pix[i+1], src.Pix[i], src.Pix[i+3])`
for every block index `i`, leaves every destination byte at or beyond the
source length unchanged, and its buffer output is the same for every
destination rectangle and stride. -/
theorem copyRGBAtoBGRA_spec (dst : BGRA) (src : RGBAImage)
    (hlen : src.Pix.length ≤ dst.Pix.length) (hdiv : 4 ∣ src.Pix.length) :
    (∀ (r : Rectangle) (s : Int),
      (copyRGBAtoBGRA ⟨dst.Pix, r, s⟩ src).map BGRA.Pix =
        (copyRGBAtoBGRA dst src).map BGRA.Pix) ∧
    ∃ out, copyRGBAtoBGRA dst src = some out ∧
      out.Rect = dst.Rect ∧ out.Stride = dst.Stride ∧
      out.Pix.length = dst.Pix.length ∧
      (∀ i, 4 ∣ i → i + 3 < src.Pix.length →
        byteAt out.Pix i = byteAt src.Pix (i + 2) ∧
        byteAt out.Pix (i + 1) = byteAt src.Pix (i + 1) ∧
        byteAt out.Pix (i + 2) = byteAt src.Pix i ∧
        byteAt out.Pix (i + 3) = byteAt src.Pix (i + 3)) ∧
      (∀ j, src.Pix.length ≤ j → byteAt out.Pix j = byteAt dst.Pix j) := by
  obtain ⟨outl, hout, houtlen, _, habove, hblocks⟩ :=
    copyBGRALoop_spec src.Pix hdiv src.Pix.length dst.Pix 0 hlen
      (Dvd.intro 0 rfl) (Nat.zero_le _) rfl
  constructor
  · intro r s
    simp [copyRGBAtoBGRA, hout]
  · refine ⟨⟨outl, dst.Rect, dst.Stride⟩, by simp [copyRGBAtoBGRA, hout], rfl, rfl,
      houtlen, ?_, ?_⟩
    · intro i h4 h3
      exact hblocks i h4 (Nat.zero_le i) h3
    · intro j hj
      exact habove j hj

/-- C10, witness: copying a single-pixel source (10, 20, 30, 40) into a
four-byte destination, with the copy evaluated concretely: the destination
bytes become (30, 20, 10, 40). -/
theorem copyRGBAtoBGRA_spec_witness :
    ([10, 20, 30, 40] : List Nat).length ≤ ([0, 0, 0, 0] : List Nat).length ∧
    4 ∣ ([10, 20, 30, 40] : List Nat).length ∧
    ∃ out, copyRGBAtoBGRA ⟨[0, 0, 0, 0], mkRect 0 0 9 9, 77⟩
        ⟨[10, 20, 30, 40], mkRect 0 0 1 1, 4⟩ = some out ∧
      out.Pix = [30, 20, 10, 40] := by
  refine ⟨by decide, by decide, ?_⟩
  obtain ⟨-, out, hout, -⟩ :=
    copyRGBAtoBGRA_spec ⟨[0, 0, 0, 0], mkRect 0 0 9 9, 77⟩
      ⟨[10, 20, 30, 40], mkRect 0 0 1 1, 4⟩ (by decide) (by decide)
  refine ⟨out, hout, ?_⟩
  have hconc : copyRGBAtoBGRA ⟨[0, 0, 0, 0], mkRect 0 0 9 9, 77⟩
      ⟨[10, 20, 30, 40], mkRect 0 0 1 1, 4⟩ =
      some ⟨[30, 20, 10, 40], mkRect 0 0 9 9, 77⟩ := by
    simp [copyRGBAtoBGRA, copyBGRALoop, byteAt]
  rw [hconc] at hout
  cases hout
  rfl

end Fbstatus
